import Mathlib

/-!
Verification of the Zen display firmware lifecycle controller
(src/e-ink-display/src/main.cpp) against its specification.

The C++ globals and functions are shallowly embedded: global mutable
state becomes explicit record types that operations transform, the
HTTP transport becomes an explicit response value handed to each
operation, and the wall clock becomes an optional local-date parameter
(none models an unsynchronized clock, for which time(nullptr) < 10000).
Strings are modeled at character granularity (byte-level NUL and
multi-byte encoding details are outside the model).
-/

set_option maxRecDepth 8192

namespace ZenDisplay

/-- UI modes of the display, mirroring enum class UiMode in main.cpp. -/
inductive UiMode where
  | Provisioning
  | Calendar
  | Email
deriving DecidableEq, Repr

/-- The single-slot provisioning mailbox written by the BLE callback:
globals pendingSsid, pendingPassword and the credentialsUpdated flag. -/
structure PendingCreds where
  pendingSsid : List Char
  pendingPassword : List Char
  credentialsUpdated : Bool
deriving DecidableEq, Repr

/-- Splits a character list at the first newline, mirroring
raw.find of the newline character followed by the two substr calls in
CredentialCallbacks::onWrite.  Returns none when no newline occurs. -/
def splitAtNewline : List Char → Option (List Char × List Char)
  | [] => none
  | c :: rest =>
    if c = '\n' then some ([], rest)
    else
      match splitAtNewline rest with
      | none => none
      | some (a, b) => some (c :: a, b)

/-- CredentialCallbacks::onWrite (main.cpp lines 171-190): an empty
payload or one without a newline separator is discarded; otherwise the
parts before and after the first newline become pendingSsid and
pendingPassword and credentialsUpdated is raised. -/
def credentialOnWrite (raw : List Char) (s : PendingCreds) : PendingCreds :=
  if raw.isEmpty then s
  else
    match splitAtNewline raw with
    | none => s
    | some (a, b) =>
      { pendingSsid := a, pendingPassword := b, credentialsUpdated := true }

theorem splitAtNewline_eq_none (raw : List Char) (h : '\n' ∉ raw) :
    splitAtNewline raw = none := by
  induction raw with
  | nil => rfl
  | cons c rest ih =>
    have hc : ¬ c = '\n' := fun hcc => h (hcc ▸ List.mem_cons_self c rest)
    have hrest : '\n' ∉ rest := fun hm => h (List.mem_cons_of_mem c hm)
    simp [splitAtNewline, hc, ih hrest]

theorem splitAtNewline_append (a b : List Char) (h : '\n' ∉ a) :
    splitAtNewline (a ++ '\n' :: b) = some (a, b) := by
  induction a with
  | nil => simp [splitAtNewline]
  | cons c rest ih =>
    have hc : ¬ c = '\n' := fun hcc => h (hcc ▸ List.mem_cons_self c rest)
    have hrest : '\n' ∉ rest := fun hm => h (List.mem_cons_of_mem c hm)
    simp [splitAtNewline, hc, ih hrest]

/-- Claim C2: an inbound provisioning payload that is empty or contains
no newline separator leaves PendingCredentials (pendingSsid,
pendingPassword) unchanged and does not raise the credentials-updated
flag; a payload containing a separator stores the parts before and
after the first separator as ssid and password and raises the flag. -/
theorem credential_onwrite_parsing (raw : List Char) (s : PendingCreds) :
    ('\n' ∉ raw → credentialOnWrite raw s = s) ∧
    (∀ a b : List Char, raw = a ++ '\n' :: b → '\n' ∉ a →
      credentialOnWrite raw s =
        { pendingSsid := a, pendingPassword := b, credentialsUpdated := true }) := by
  constructor
  · intro h
    unfold credentialOnWrite
    by_cases he : raw.isEmpty
    · simp [he]
    · simp [he, splitAtNewline_eq_none raw h]
  · intro a b hr ha
    subst hr
    unfold credentialOnWrite
    have hne : (a ++ '\n' :: b).isEmpty = false := by cases a <;> simp
    simp [hne, splitAtNewline_append a b ha]

/-- Witness for claim C2 at concrete payloads: a payload with a newline
is split into ssid and password; one without a newline is discarded. -/
theorem credential_onwrite_parsing_witness :
    credentialOnWrite ['h', 'i', '\n', 'p', 'w'] ⟨[], [], false⟩ =
      { pendingSsid := ['h', 'i'], pendingPassword := ['p', 'w'],
        credentialsUpdated := true } ∧
    credentialOnWrite ['h', 'i'] ⟨[], [], false⟩ = ⟨[], [], false⟩ := by
  constructor
  · exact (credential_onwrite_parsing ['h', 'i', '\n', 'p', 'w'] ⟨[], [], false⟩).2
      ['h', 'i'] ['p', 'w'] rfl (by decide)
  · exact (credential_onwrite_parsing ['h', 'i'] ⟨[], [], false⟩).1 (by decide)

/-- The persisted identity record: globals deviceId, deviceSecret,
pairingToken and bleName in main.cpp (the spec calls the last one
displayName).  The persistent key-value mirror always receives the
same values, so one record stands for both. -/
structure DeviceIdentity where
  deviceId : String
  deviceSecret : String
  pairingToken : String
  bleName : String
deriving DecidableEq, Repr

/-- The body of a 201 registration response after JSON parsing.  A field
missing from the body parses to the empty string, as with ArduinoJson. -/
structure RegBody where
  deviceId : String
  deviceSecret : String
  pairingToken : String
  bluetoothName : String
deriving DecidableEq, Repr

/-- What the registration HTTP exchange yields once attempted:
http.begin failing, or an HTTP status code together with the parse of
the body (none models a body deserializeJson rejects; it is only
consulted for code 201). -/
inductive RegResponse where
  | beginFail
  | status (code : Int) (body : Option RegBody)
deriving DecidableEq, Repr

/-- Result of registerDeviceWithBackend: the returned Bool, the new
identity record, whether the network was used at all past the two early
returns, and the status token pushed over BLE (if any). -/
structure RegResult where
  success : Bool
  ident : DeviceIdentity
  requestIssued : Bool
  statusPushed : Option String
deriving DecidableEq, Repr

/-- registerDeviceWithBackend (main.cpp lines 520-582): no Wi-Fi means
failure with no request; a non-empty deviceId and deviceSecret
short-circuit to success with no request; otherwise the response
decides: only a 201 with a parseable body populates the identity
(bluetoothName replaces bleName only when non-empty), everything else
fails without touching it. -/
def registerDeviceWithBackend (wifiConnected : Bool)
    (ident : DeviceIdentity) (resp : RegResponse) : RegResult :=
  if wifiConnected = false then
    { success := false, ident := ident, requestIssued := false, statusPushed := none }
  else if ident.deviceId ≠ "" ∧ ident.deviceSecret ≠ "" then
    { success := true, ident := ident, requestIssued := false,
      statusPushed := some "registered" }
  else
    match resp with
    | RegResponse.beginFail =>
      { success := false, ident := ident, requestIssued := false, statusPushed := none }
    | RegResponse.status code body =>
      if code ≠ 201 then
        { success := false, ident := ident, requestIssued := true, statusPushed := none }
      else
        match body with
        | none =>
          { success := false, ident := ident, requestIssued := true, statusPushed := none }
        | some b =>
          { success := true,
            ident :=
              { deviceId := b.deviceId, deviceSecret := b.deviceSecret,
                pairingToken := b.pairingToken,
                bleName := if b.bluetoothName ≠ "" then b.bluetoothName else ident.bleName },
            requestIssued := true, statusPushed := some "registered" }

/-- Claim C1: with the connection established and deviceId and
deviceSecret both non-empty, register() returns success, issues no
network request, and leaves DeviceIdentity unchanged, whatever the
backend would have answered. -/
theorem register_already_registered_short_circuit
    (ident : DeviceIdentity) (resp : RegResponse)
    (hid : ident.deviceId ≠ "") (hsec : ident.deviceSecret ≠ "") :
    (registerDeviceWithBackend true ident resp).success = true ∧
    (registerDeviceWithBackend true ident resp).ident = ident ∧
    (registerDeviceWithBackend true ident resp).requestIssued = false := by
  unfold registerDeviceWithBackend
  simp [hid, hsec]

/-- Witness for claim C1 at a concrete registered identity and a backend
answer that would have re-registered the device. -/
theorem register_already_registered_short_circuit_witness :
    (registerDeviceWithBackend true ⟨"dev-1", "sec-1", "tok-1", "Zen"⟩
        (RegResponse.status 201 (some ⟨"dev-2", "sec-2", "tok-2", "Other"⟩))).success = true ∧
    (registerDeviceWithBackend true ⟨"dev-1", "sec-1", "tok-1", "Zen"⟩
        (RegResponse.status 201 (some ⟨"dev-2", "sec-2", "tok-2", "Other"⟩))).ident =
      ⟨"dev-1", "sec-1", "tok-1", "Zen"⟩ ∧
    (registerDeviceWithBackend true ⟨"dev-1", "sec-1", "tok-1", "Zen"⟩
        (RegResponse.status 201 (some ⟨"dev-2", "sec-2", "tok-2", "Other"⟩))).requestIssued = false :=
  register_already_registered_short_circuit ⟨"dev-1", "sec-1", "tok-1", "Zen"⟩
    (RegResponse.status 201 (some ⟨"dev-2", "sec-2", "tok-2", "Other"⟩))
    (by decide) (by decide)

/-- The invariant claimed for DeviceIdentity: deviceId and deviceSecret
are either both empty or both non-empty. -/
def identityInvariant (ident : DeviceIdentity) : Bool :=
  (ident.deviceId.isEmpty && ident.deviceSecret.isEmpty) ||
  (!ident.deviceId.isEmpty && !ident.deviceSecret.isEmpty)

/-- The identity on first boot: the preferences store yields empty
strings for every credential field and a generated default BLE name
(setup, main.cpp lines 824-830, with an empty store). -/
def initialIdentity (defaultName : String) : DeviceIdentity :=
  { deviceId := "", deviceSecret := "", pairingToken := "", bleName := defaultName }

/-- Receipt of fresh provisioning credentials (loop, main.cpp lines
883-898): a non-empty pending SSID wipes deviceId, deviceSecret and
pairingToken to force a fresh registration; an empty one changes
nothing. -/
def consumeCredentials (pendingSsid : String) (ident : DeviceIdentity) : DeviceIdentity :=
  if pendingSsid = "" then ident
  else { ident with deviceId := "", deviceSecret := "", pairingToken := "" }

/-- performFactoryReset, identity part (main.cpp lines 779-797): every
credential field is cleared and the BLE name regenerated. -/
def performFactoryResetIdentity (defaultName : String) : DeviceIdentity :=
  { deviceId := "", deviceSecret := "", pairingToken := "", bleName := defaultName }

/-- Boot load (setup, main.cpp lines 824-830): the in-memory identity
becomes exactly what the persistent store holds. -/
def bootLoadIdentity (persisted : DeviceIdentity) : DeviceIdentity := persisted

/-- Well-formedness of a registration exchange: a 201 response body
carries deviceId and deviceSecret that are both empty or both
non-empty.  The wire contract (201 body with deviceId and deviceSecret)
guarantees this; the firmware itself never checks it. -/
def regResponseWellFormed : RegResponse → Bool
  | RegResponse.status code (some b) =>
    if code = 201 then
      (b.deviceId.isEmpty && b.deviceSecret.isEmpty) ||
      (!b.deviceId.isEmpty && !b.deviceSecret.isEmpty)
    else true
  | _ => true

/-- Counterexample to claim C6 as stated: from the empty identity
(which satisfies the invariant), a successful 201 registration whose
parsed body has a non-empty deviceId but an empty deviceSecret is
stored unvalidated, breaking the both-or-neither invariant. -/
theorem identity_atomicity_cex :
    identityInvariant ⟨"", "", "", ""⟩ = true ∧
    identityInvariant (registerDeviceWithBackend true ⟨"", "", "", ""⟩
      (RegResponse.status 201 (some ⟨"dev-1", "", "tok-1", ""⟩))).ident = false := by
  constructor
  · rfl
  · rfl

/-- Claim C6 (amended): the both-empty-or-both-non-empty invariant on
deviceId and deviceSecret holds for the boot identity and is preserved
by credential receipt, factory reset and boot load unconditionally,
and by registration provided every 201 response body carries deviceId
and deviceSecret both non-empty or both empty, as the wire contract
specifies. -/
theorem identity_atomicity_amended (ident : DeviceIdentity) (wifi : Bool)
    (resp : RegResponse) (ssid dn : String)
    (hinv : identityInvariant ident = true)
    (hresp : regResponseWellFormed resp = true) :
    identityInvariant (initialIdentity dn) = true ∧
    identityInvariant (registerDeviceWithBackend wifi ident resp).ident = true ∧
    identityInvariant (consumeCredentials ssid ident) = true ∧
    identityInvariant (performFactoryResetIdentity dn) = true ∧
    identityInvariant (bootLoadIdentity ident) = true := by
  refine ⟨rfl, ?_, ?_, rfl, hinv⟩
  · unfold registerDeviceWithBackend
    split
    · exact hinv
    · split
      · exact hinv
      · cases resp with
        | beginFail => exact hinv
        | status code body =>
          dsimp only
          split
          · exact hinv
          · rename_i hcode
            have hc : code = 201 := by
              by_contra hne
              exact hcode hne
            cases body with
            | none => exact hinv
            | some b =>
              have := hresp
              simp only [regResponseWellFormed, hc, if_pos] at this
              simpa [identityInvariant] using this
  · unfold consumeCredentials
    split
    · exact hinv
    · rfl

/-- Witness for the amended claim C6 at concrete values: the empty boot
identity, a contract-conformant 201 response, a real pending SSID and a
default BLE name. -/
theorem identity_atomicity_amended_witness :
    identityInvariant (initialIdentity "ZenDisplay-0000") = true ∧
    identityInvariant (registerDeviceWithBackend true ⟨"", "", "", ""⟩
        (RegResponse.status 201 (some ⟨"dev-1", "sec-1", "tok-1", "Zen"⟩))).ident = true ∧
    identityInvariant (consumeCredentials "home-net" ⟨"", "", "", ""⟩) = true ∧
    identityInvariant (performFactoryResetIdentity "ZenDisplay-0000") = true ∧
    identityInvariant (bootLoadIdentity ⟨"", "", "", ""⟩) = true :=
  identity_atomicity_amended ⟨"", "", "", ""⟩ true
    (RegResponse.status 201 (some ⟨"dev-1", "sec-1", "tok-1", "Zen"⟩))
    "home-net" "ZenDisplay-0000" (by decide) (by decide)

/-- Character-counted take on strings, extensionally the same function
as String.take (both count characters, not bytes), stated on the
character list so that concrete witnesses reduce structurally. -/
def strTake (s : String) (n : Nat) : String := String.mk (s.toList.take n)

/-- Character-counted drop on strings, extensionally the same function
as String.drop; see strTake. -/
def strDrop (s : String) (n : Nat) : String := String.mk (s.toList.drop n)

/-- A raw calendar item of the state response body: fields start,
summary, location, each defaulting to the empty string when absent. -/
structure RawCalItem where
  start : String
  summary : String
  location : String
deriving DecidableEq, Repr

/-- A raw email item of the state response body.  The source field name
is from (a Lean keyword), here fromAddr. -/
structure RawEmailItem where
  fromAddr : String
  subject : String
  snippet : String
deriving DecidableEq, Repr

/-- The parse of a 200 state response body: the calendar items array
and the email items array. -/
structure ParsedState where
  calendar : List RawCalItem
  email : List RawEmailItem
deriving DecidableEq, Repr

/-- extractTimeFromISO (main.cpp lines 266-278): the five characters at
offset 11 of an ISO timestamp longer than 16 characters, otherwise the
placeholder. -/
def extractTimeFromISO (iso : String) : String :=
  if iso.length > 16 then strTake (strDrop iso 11) 5 else "--:--"

/-- isEventToday (main.cpp lines 281-299): false for a timestamp of
fewer than 10 characters or an unsynchronized clock (today = none);
otherwise the first 10 characters compared against the local date. -/
def isEventToday (today : Option String) (iso : String) : Bool :=
  if iso.length < 10 then false
  else
    match today with
    | none => false
    | some t => strTake iso 10 == t

/-- The today-only calendar pass of fetchDeviceState (main.cpp lines
639-656): walk the items in order, skip empty starts, keep an item
whose date is today as the pair (display text, location) where the
display text is the extracted HH:MM, a space and the summary; stop once
room (3 in the code) entries are kept. -/
def collectToday (today : Option String) : List RawCalItem → Nat → List (String × String)
  | _, 0 => []
  | [], _ + 1 => []
  | item :: rest, r + 1 =>
    if item.start = "" then collectToday today rest (r + 1)
    else if isEventToday today item.start then
      (extractTimeFromISO item.start ++ " " ++ item.summary, item.location)
        :: collectToday today rest r
    else collectToday today rest (r + 1)

/-- Index of the last space in a character list, if any. -/
def lastSpaceIdx : List Char → Option Nat
  | [] => none
  | c :: rest =>
    match lastSpaceIdx rest with
    | some i => some (i + 1)
    | none => if c = ' ' then some 0 else none

/-- One line of the 18-character word wrap in updateMailSummaryLines
(main.cpp lines 212-230): scan up to 18 characters; if text remains and
a space occurred past the first position, break at the last such space
(consuming it), else break at the scan limit. -/
def wrapOne (text : List Char) : List Char × List Char :=
  let p := text.take 18
  let rest0 := text.drop 18
  if rest0.isEmpty then (p, [])
  else
    match lastSpaceIdx p with
    | none => (p, rest0)
    | some 0 => (p, rest0)
    | some (i + 1) => (p.take (i + 1), text.drop (i + 2))

/-- The wrap loop of updateMailSummaryLines: up to six lines, stopping
early when the text is exhausted. -/
def wrapLines : Nat → List Char → List String
  | 0, _ => []
  | _ + 1, [] => []
  | n + 1, c :: rest =>
    (wrapOne (c :: rest)).1.asString :: wrapLines n (wrapOne (c :: rest)).2

/-- updateMailSummaryLines (main.cpp lines 200-231): the buffer of six
lines, cleared first, then filled by the wrap loop. -/
def updateMailSummaryLines (text : String) : List String :=
  let ls := wrapLines 6 text.toList
  ls ++ List.replicate (6 - ls.length) ""

/-- copyToBuffer (main.cpp lines 195-198): an Arduino String copied
into a fixed char buffer keeps at most capacity - 1 characters. -/
def copyToBuffer (capacity : Nat) (value : String) : String :=
  strTake value (capacity - 1)

/-- The display-facing globals of main.cpp (lines 58-97, 131, 150)
that fetchDeviceState and the mode controller read and write. -/
structure DisplayState where
  gCalSlotPrimary : String
  gCalSlotSecondary : String
  gCalSlotThird : String
  gCalLocation : String
  gCalSelected : String
  gMailSlotPrimary : String
  gMailSelected : String
  gMailSender : String
  gMailSummary : String
  mailLines : List String
  lastStateSignature : String
  minuteRefreshPending : Bool
  currentUi : UiMode
  stateReady : Bool
deriving DecidableEq, Repr

/-- The globals as initialized at boot (main.cpp lines 58-97, 131,
150): placeholder texts, an empty fingerprint, Provisioning mode. -/
def initialDisplayState : DisplayState where
  gCalSlotPrimary := "Pair Zen Display"
  gCalSlotSecondary := "Add calendar"
  gCalSlotThird := ""
  gCalLocation := ""
  gCalSelected := "Open Zen Phone app"
  gMailSlotPrimary := "Connect Gmail"
  gMailSelected := "No email"
  gMailSender := ""
  gMailSummary := "Open Settings -> Connect Display"
  mailLines := ["", "", "", "", "", ""]
  lastStateSignature := ""
  minuteRefreshPending := false
  currentUi := UiMode.Provisioning
  stateReady := false

/-- The calendar buffer writes of fetchDeviceState (main.cpp lines
657-672): zero kept entries clear all five calendar fields; otherwise
the first entry fills the primary, selected and location fields and the
second and third entries (or empty strings) the remaining slots. -/
def applyCalendarBuffers (st : DisplayState) (kept : List (String × String)) : DisplayState :=
  match kept with
  | [] =>
    { st with
        gCalSlotPrimary := copyToBuffer 64 ""
        gCalSelected := copyToBuffer 96 ""
        gCalLocation := copyToBuffer 48 ""
        gCalSlotSecondary := copyToBuffer 64 ""
        gCalSlotThird := copyToBuffer 64 "" }
  | (f0, l0) :: rest =>
    { st with
        gCalSlotPrimary := copyToBuffer 64 f0
        gCalSelected := copyToBuffer 96 f0
        gCalLocation := copyToBuffer 48 l0
        gCalSlotSecondary :=
          copyToBuffer 64 (match rest with | [] => "" | (f1, _) :: _ => f1)
        gCalSlotThird :=
          copyToBuffer 64 (match rest with | _ :: (f2, _) :: _ => f2 | _ => "") }

/-- The email buffer writes of fetchDeviceState (main.cpp lines
674-714): no items leave every mail field untouched; otherwise the
first sender fills the selected slot, the second and third senders (or
empty strings) the two lower slots, and the first snippet the summary,
re-wrapped into the six summary lines. -/
def applyEmailBuffers (st : DisplayState) (email : List RawEmailItem) : DisplayState :=
  match email with
  | [] => st
  | e0 :: rest =>
    { st with
        gMailSelected := copyToBuffer 64 e0.fromAddr
        gMailSlotPrimary :=
          copyToBuffer 64 (match rest with | [] => "" | e1 :: _ => e1.fromAddr)
        gMailSender :=
          copyToBuffer 64 (match rest with | _ :: e2 :: _ => e2.fromAddr | _ => "")
        gMailSummary := copyToBuffer 192 e0.snippet
        mailLines := updateMailSummaryLines (copyToBuffer 192 e0.snippet) }

/-- The email strings that enter the fingerprint (main.cpp lines
679-695): subject, first sender and snippet of the first item, all
empty when there are no items. -/
def emailSigFields (email : List RawEmailItem) : String × String × String :=
  match email with
  | [] => ("", "", "")
  | e0 :: _ => (e0.subject, e0.fromAddr, e0.snippet)

/-- The signature string of fetchDeviceState (main.cpp lines 716-730):
calendar count, each kept display text, the first location when one
exists, then subject, first sender and snippet, truncated to the 511
characters that fit the lastStateSignature buffer. -/
def buildSignature (kept : List (String × String))
    (subject sender0 snippet : String) : String :=
  let base :=
    "cal:" ++ toString kept.length
      ++ kept.foldl (fun acc p => acc ++ "|" ++ p.1) ""
      ++ (match kept with | [] => "" | (_, l0) :: _ => "|loc0:" ++ l0)
      ++ ";mail:" ++ subject ++ "|" ++ sender0 ++ "|" ++ snippet
  strTake base 511

/-- The fingerprint a fetch derives from the raw response body. -/
def fetchSignature (today : Option String) (cal : List RawCalItem)
    (email : List RawEmailItem) : String :=
  buildSignature (collectToday today cal 3) (emailSigFields email).1
    (emailSigFields email).2.1 (emailSigFields email).2.2

/-- What a call to refreshDisplayForMode leaves behind: the value of
the currentUi global and whether a full display redraw was driven. -/
structure ModeResult where
  newUi : UiMode
  redrew : Bool
deriving DecidableEq, Repr

/-- refreshDisplayForMode (main.cpp lines 301-323): a no-op when the
current mode already equals the target; otherwise a Calendar target
with an empty primary calendar buffer is substituted by Email, the view
is drawn in full, and the (substituted) target becomes current. -/
def refreshDisplayForMode (currentUi : UiMode) (calPrimary : String)
    (targetMode : UiMode) : ModeResult :=
  if currentUi = targetMode then { newUi := currentUi, redrew := false }
  else
    let t := if targetMode = UiMode.Calendar ∧ calPrimary = "" then UiMode.Email
             else targetMode
    { newUi := t, redrew := t == UiMode.Calendar || t == UiMode.Email }

/-- The toggle computed on a rising edge of the mode button (loop,
main.cpp lines 944-952): Calendar goes to Email, anything else requests
Calendar. -/
def modeButtonTarget (currentUi : UiMode) : UiMode :=
  if currentUi = UiMode.Calendar then UiMode.Email else UiMode.Calendar

/-- A debounced rising edge of the mode button: the toggle target is
handed to refreshDisplayForMode. -/
def modeButtonPress (currentUi : UiMode) (calPrimary : String) : ModeResult :=
  refreshDisplayForMode currentUi calPrimary (modeButtonTarget currentUi)

/-- What the state HTTP exchange yields once attempted: http.begin
failing, or a status code with the parse of the body (none models a
body deserializeJson rejects; consulted only for code 200). -/
inductive FetchOutcome where
  | beginFail
  | status (code : Int) (body : Option ParsedState)
deriving DecidableEq, Repr

/-- Result of fetchDeviceState: the returned Bool, the new display
state, the status token pushed over BLE (if any) and whether a display
redraw was driven. -/
structure FetchResult where
  success : Bool
  st : DisplayState
  statusPushed : Option String
  redrew : Bool
deriving DecidableEq, Repr

/-- The successful tail of fetchDeviceState (main.cpp lines 632-752):
buffers rebuilt from the parsed body, the fingerprint compared and
stored when changed, stateReady raised; then the redraw decision:
Provisioning promotes via refreshDisplayForMode(Calendar), any other
mode redraws exactly when the content changed or a minute tick is
pending, clearing the pending flag whenever it draws. -/
def applyFetchedState (today : Option String) (st : DisplayState)
    (parsed : ParsedState) : FetchResult :=
  let kept := collectToday today parsed.calendar 3
  let st2 := applyEmailBuffers (applyCalendarBuffers st kept) parsed.email
  let newSig := fetchSignature today parsed.calendar parsed.email
  let contentChanged := st.lastStateSignature != newSig
  let st3 := if contentChanged then { st2 with lastStateSignature := newSig } else st2
  let st4 := { st3 with stateReady := true }
  if st.currentUi = UiMode.Provisioning then
    let m := refreshDisplayForMode st.currentUi st2.gCalSlotPrimary UiMode.Calendar
    { success := true,
      st := { st4 with currentUi := m.newUi, minuteRefreshPending := false },
      statusPushed := some "ready", redrew := m.redrew }
  else if contentChanged || st.minuteRefreshPending then
    { success := true, st := { st4 with minuteRefreshPending := false },
      statusPushed := some "ready", redrew := true }
  else
    { success := true, st := st4, statusPushed := some "ready", redrew := false }

/-- fetchDeviceState (main.cpp lines 584-752): no Wi-Fi or missing
credentials fail immediately; a 409 drops stateReady, pushes
waiting_for_claim and fails leaving every buffer alone; any other
non-200 code or an unparseable body fails with no state change; a
parseable 200 body runs the successful tail. -/
def fetchDeviceState (wifiConnected : Bool) (ident : DeviceIdentity)
    (today : Option String) (st : DisplayState) (outcome : FetchOutcome) : FetchResult :=
  if wifiConnected = false ∨ ident.deviceId = "" ∨ ident.deviceSecret = "" then
    { success := false, st := st, statusPushed := none, redrew := false }
  else
    match outcome with
    | FetchOutcome.beginFail =>
      { success := false, st := st, statusPushed := none, redrew := false }
    | FetchOutcome.status code body =>
      if code = 409 then
        { success := false, st := { st with stateReady := false },
          statusPushed := some "waiting_for_claim", redrew := false }
      else if code ≠ 200 then
        { success := false, st := st, statusPushed := none, redrew := false }
      else
        match body with
        | none => { success := false, st := st, statusPushed := none, redrew := false }
        | some parsed => applyFetchedState today st parsed

/-- The loop globals the minute-boundary branch touches (main.cpp
lines 861-881). -/
structure LoopState where
  minuteRefreshPending : Bool
  lastStateFetch : Nat
  wifiConnected : Bool
  deviceRegistered : Bool
  stateReady : Bool
  currentUi : UiMode
deriving DecidableEq, Repr

/-- Result of a minute-boundary tick: the new loop globals and whether
the branch itself drove a redraw of the current view. -/
structure MinuteTickResult where
  st : LoopState
  redrew : Bool
deriving DecidableEq, Repr

/-- The minute-boundary branch of loop (main.cpp lines 867-880), taken
when the displayed HH:MM string changes: the pending flag is raised;
with Wi-Fi and registration established the last-fetch timestamp is
zeroed; otherwise, only when a snapshot is ready and the mode is not
Provisioning, the current view is redrawn and the flag cleared. -/
def onMinuteBoundary (st : LoopState) : MinuteTickResult :=
  let st1 := { st with minuteRefreshPending := true }
  if st1.wifiConnected ∧ st1.deviceRegistered then
    { st := { st1 with lastStateFetch := 0 }, redrew := false }
  else if st1.stateReady ∧ st1.currentUi ≠ UiMode.Provisioning then
    { st := { st1 with minuteRefreshPending := false }, redrew := true }
  else
    { st := st1, redrew := false }

/-- The fetch-interval guard of loop (main.cpp line 925): a fetch runs
when the elapsed time exceeds STATE_REFRESH_INTERVAL_MS (60000) or no
snapshot is ready.  Times are in milliseconds; the 32-bit wraparound of
millis() is outside the model. -/
def stateFetchDue (now lastFetch : Nat) (stateReady : Bool) : Bool :=
  decide (now - lastFetch > 60000) || !stateReady

/-- The device identity used by concrete witness instances. -/
def witnessIdent : DeviceIdentity :=
  { deviceId := "dev-1", deviceSecret := "sec-1", pairingToken := "tok-1", bleName := "Zen" }

/-- Claim C3: a fetch that receives a 409 returns failure, pushes the
waiting_for_claim status, and leaves the whole previous snapshot
untouched: the resulting state differs from the old one at most in
stateReady, so every calendar and email display field, the summary
lines and the stored fingerprint are preserved, and no redraw runs. -/
theorem fetch_conflict_preserves_snapshot (ident : DeviceIdentity)
    (today : Option String) (st : DisplayState) (body : Option ParsedState)
    (hid : ident.deviceId ≠ "") (hsec : ident.deviceSecret ≠ "") :
    (fetchDeviceState true ident today st (FetchOutcome.status 409 body)).success = false ∧
    (fetchDeviceState true ident today st (FetchOutcome.status 409 body)).statusPushed =
      some "waiting_for_claim" ∧
    (fetchDeviceState true ident today st (FetchOutcome.status 409 body)).st =
      { st with stateReady := false } ∧
    (fetchDeviceState true ident today st (FetchOutcome.status 409 body)).redrew = false := by
  unfold fetchDeviceState
  simp [hid, hsec]

/-- Witness for claim C3: a concrete registered identity receiving a
409 against the boot display state. -/
theorem fetch_conflict_preserves_snapshot_witness :
    (fetchDeviceState true witnessIdent none initialDisplayState
      (FetchOutcome.status 409 none)).success = false ∧
    (fetchDeviceState true witnessIdent none initialDisplayState
      (FetchOutcome.status 409 none)).statusPushed = some "waiting_for_claim" ∧
    (fetchDeviceState true witnessIdent none initialDisplayState
      (FetchOutcome.status 409 none)).st =
      { initialDisplayState with stateReady := false } ∧
    (fetchDeviceState true witnessIdent none initialDisplayState
      (FetchOutcome.status 409 none)).redrew = false :=
  fetch_conflict_preserves_snapshot witnessIdent none initialDisplayState none
    (by decide) (by decide)

/-- Claim C8: the fingerprint computed by a fetch depends on the raw
calendar items only through the kept today-only entries, so two raw
lists that filter to the same kept entries in the same order yield
equal fingerprints for identical email records. -/
theorem fingerprint_filter_congruence (today : Option String)
    (l1 l2 : List RawCalItem) (email : List RawEmailItem)
    (h : collectToday today l1 3 = collectToday today l2 3) :
    fetchSignature today l1 email = fetchSignature today l2 email := by
  unfold fetchSignature
  rw [h]

/-- Witness for claim C8: a list with an extra non-today item versus
the today-only list; both keep exactly the standup entry. -/
theorem fingerprint_filter_congruence_witness :
    fetchSignature (some "2026-01-08")
      [⟨"2026-01-08T07:50:00+01:00", "Standup", "HQ"⟩,
       ⟨"2025-01-01T09:00:00+01:00", "OldEvent", ""⟩]
      [⟨"alice", "Hello", "Snippet text"⟩] =
    fetchSignature (some "2026-01-08")
      [⟨"2026-01-08T07:50:00+01:00", "Standup", "HQ"⟩]
      [⟨"alice", "Hello", "Snippet text"⟩] :=
  fingerprint_filter_congruence (some "2026-01-08")
    [⟨"2026-01-08T07:50:00+01:00", "Standup", "HQ"⟩,
     ⟨"2025-01-01T09:00:00+01:00", "OldEvent", ""⟩]
    [⟨"2026-01-08T07:50:00+01:00", "Standup", "HQ"⟩]
    [⟨"alice", "Hello", "Snippet text"⟩] (by decide)

theorem applyEmailBuffers_calPrimary (st : DisplayState) (email : List RawEmailItem) :
    (applyEmailBuffers st email).gCalSlotPrimary = st.gCalSlotPrimary := by
  cases email <;> rfl

theorem applyFetchedState_calPrimary (today : Option String) (st : DisplayState)
    (parsed : ParsedState) :
    (applyFetchedState today st parsed).st.gCalSlotPrimary =
      (applyCalendarBuffers st (collectToday today parsed.calendar 3)).gCalSlotPrimary := by
  simp only [applyFetchedState]
  split
  · simp [applyEmailBuffers_calPrimary, apply_ite DisplayState.gCalSlotPrimary]
  · split <;> simp [applyEmailBuffers_calPrimary, apply_ite DisplayState.gCalSlotPrimary]

theorem fetchDeviceState_ok_eq (ident : DeviceIdentity) (today : Option String)
    (st : DisplayState) (parsed : ParsedState)
    (hid : ident.deviceId ≠ "") (hsec : ident.deviceSecret ≠ "") :
    fetchDeviceState true ident today st (FetchOutcome.status 200 (some parsed)) =
      applyFetchedState today st parsed := by
  unfold fetchDeviceState
  simp [hid, hsec]

/-- Claim C5: when a successful fetch keeps zero today-only calendar
entries, the primary calendar buffer is cleared, and from any mode
other than Calendar a subsequent Calendar request lands on Email. -/
theorem fetch_zero_calendar_requests_email (ident : DeviceIdentity)
    (today : Option String) (st : DisplayState) (parsed : ParsedState)
    (hid : ident.deviceId ≠ "") (hsec : ident.deviceSecret ≠ "")
    (hkept : collectToday today parsed.calendar 3 = []) :
    (fetchDeviceState true ident today st
      (FetchOutcome.status 200 (some parsed))).st.gCalSlotPrimary = "" ∧
    ∀ ui : UiMode, ui ≠ UiMode.Calendar →
      (refreshDisplayForMode ui
        (fetchDeviceState true ident today st
          (FetchOutcome.status 200 (some parsed))).st.gCalSlotPrimary
        UiMode.Calendar).newUi = UiMode.Email := by
  have hprim : (fetchDeviceState true ident today st
      (FetchOutcome.status 200 (some parsed))).st.gCalSlotPrimary = "" := by
    rw [fetchDeviceState_ok_eq ident today st parsed hid hsec,
      applyFetchedState_calPrimary, hkept]
    rfl
  refine ⟨hprim, ?_⟩
  intro ui hui
  rw [hprim]
  unfold refreshDisplayForMode
  simp [hui]

/-- Witness for claim C5: a fetch whose only calendar item is not from
today clears the buffer, and a Calendar request from Email mode lands
on Email. -/
theorem fetch_zero_calendar_requests_email_witness :
    (fetchDeviceState true witnessIdent (some "2026-01-08") initialDisplayState
      (FetchOutcome.status 200
        (some ⟨[⟨"2025-01-01T09:00:00+01:00", "OldEvent", ""⟩], []⟩))).st.gCalSlotPrimary = "" ∧
    (refreshDisplayForMode UiMode.Email
      (fetchDeviceState true witnessIdent (some "2026-01-08") initialDisplayState
        (FetchOutcome.status 200
          (some ⟨[⟨"2025-01-01T09:00:00+01:00", "OldEvent", ""⟩], []⟩))).st.gCalSlotPrimary
      UiMode.Calendar).newUi = UiMode.Email := by
  have h := fetch_zero_calendar_requests_email witnessIdent (some "2026-01-08")
    initialDisplayState ⟨[⟨"2025-01-01T09:00:00+01:00", "OldEvent", ""⟩], []⟩
    (by decide) (by decide) (by decide)
  exact ⟨h.1, h.2 UiMode.Email (by decide)⟩

/-- Claim C4: on a successful fetch, a system in Provisioning mode is
promoted (to Calendar, or to Email via the empty-calendar fallback)
and redrawn; in any other mode a redraw happens exactly when the newly
computed fingerprint differs from lastStateSignature — the fingerprint
stored at the last content-changing redraw — or a minute tick is
pending. -/
theorem fetch_success_redraw_policy (ident : DeviceIdentity)
    (today : Option String) (st : DisplayState) (parsed : ParsedState)
    (hid : ident.deviceId ≠ "") (hsec : ident.deviceSecret ≠ "") :
    (st.currentUi = UiMode.Provisioning →
      (fetchDeviceState true ident today st
        (FetchOutcome.status 200 (some parsed))).redrew = true ∧
      ((fetchDeviceState true ident today st
          (FetchOutcome.status 200 (some parsed))).st.currentUi = UiMode.Calendar ∨
       (fetchDeviceState true ident today st
          (FetchOutcome.status 200 (some parsed))).st.currentUi = UiMode.Email)) ∧
    (st.currentUi ≠ UiMode.Provisioning →
      ((fetchDeviceState true ident today st
          (FetchOutcome.status 200 (some parsed))).redrew = true ↔
        (fetchSignature today parsed.calendar parsed.email ≠ st.lastStateSignature ∨
         st.minuteRefreshPending = true))) := by
  rw [fetchDeviceState_ok_eq ident today st parsed hid hsec]
  constructor
  · intro hprov
    by_cases hp : (applyEmailBuffers (applyCalendarBuffers st
        (collectToday today parsed.calendar 3)) parsed.email).gCalSlotPrimary = ""
    · simp [applyFetchedState, hprov, refreshDisplayForMode, hp]
    · simp [applyFetchedState, hprov, refreshDisplayForMode, hp]
  · intro hnp
    simp only [applyFetchedState]
    rw [if_neg hnp]
    split
    · rename_i h
      simp only [Bool.or_eq_true, bne_iff_ne, ne_eq] at h
      constructor
      · intro _
        rcases h with h | h
        · exact Or.inl (fun he => h he.symm)
        · exact Or.inr h
      · intro _
        rfl
    · rename_i h
      simp only [Bool.or_eq_true, bne_iff_ne, ne_eq, not_or, not_not,
        Bool.not_eq_true] at h
      constructor
      · intro hcontra
        simp at hcontra
      · intro hr
        rcases hr with hr | hr
        · exact absurd h.1.symm hr
        · rw [h.2] at hr
          exact absurd hr (by simp)

/-- Witness for claim C4: an empty body fetched once from Provisioning
mode (promotion and redraw happen) and once from Email mode (the
redraw condition reduces to the fingerprint/minute-tick disjunction). -/
theorem fetch_success_redraw_policy_witness :
    ((fetchDeviceState true witnessIdent none initialDisplayState
        (FetchOutcome.status 200 (some ⟨[], []⟩))).redrew = true ∧
      ((fetchDeviceState true witnessIdent none initialDisplayState
          (FetchOutcome.status 200 (some ⟨[], []⟩))).st.currentUi = UiMode.Calendar ∨
       (fetchDeviceState true witnessIdent none initialDisplayState
          (FetchOutcome.status 200 (some ⟨[], []⟩))).st.currentUi = UiMode.Email)) ∧
    ((fetchDeviceState true witnessIdent none
        { initialDisplayState with currentUi := UiMode.Email }
        (FetchOutcome.status 200 (some ⟨[], []⟩))).redrew = true ↔
      (fetchSignature none [] [] ≠
        ({ initialDisplayState with currentUi := UiMode.Email } : DisplayState).lastStateSignature ∨
       ({ initialDisplayState with
          currentUi := UiMode.Email } : DisplayState).minuteRefreshPending = true)) := by
  constructor
  · exact (fetch_success_redraw_policy witnessIdent none initialDisplayState ⟨[], []⟩
      (by decide) (by decide)).1 rfl
  · exact (fetch_success_redraw_policy witnessIdent none
      { initialDisplayState with currentUi := UiMode.Email } ⟨[], []⟩
      (by decide) (by decide)).2 (by decide)

/-- A loop state with no connectivity, no registration and no snapshot
ready, one minute after boot. -/
def minuteTickCex : LoopState :=
  { minuteRefreshPending := false, lastStateFetch := 5, wifiConnected := false,
    deviceRegistered := false, stateReady := false, currentUi := UiMode.Provisioning }

/-- Counterexample to claim C7 as stated: not connected and not
registered, but with no snapshot ready the minute-boundary branch
neither redraws the current view nor clears the pending flag — the
claimed unconditional redraw-and-clear does not happen. -/
theorem minute_tick_cex :
    ¬ ((onMinuteBoundary minuteTickCex).redrew = true ∧
       (onMinuteBoundary minuteTickCex).st.minuteRefreshPending = false) := by
  decide

/-- Claim C7 (amended): on a minute-boundary tick the pending flag is
raised; with connectivity and registration established the last-fetch
timestamp is zeroed, so the fetch-interval guard passes at any uptime
beyond the refresh interval; otherwise the current view is redrawn and
the flag cleared only when a snapshot is ready and the mode is not
Provisioning, and in the remaining states nothing is redrawn and the
flag stays pending. -/
theorem minute_tick_amended (st : LoopState) :
    (st.wifiConnected = true → st.deviceRegistered = true →
      (onMinuteBoundary st).st.lastStateFetch = 0 ∧
      (onMinuteBoundary st).st.minuteRefreshPending = true ∧
      (∀ now : Nat, now > 60000 →
        stateFetchDue now (onMinuteBoundary st).st.lastStateFetch
          (onMinuteBoundary st).st.stateReady = true)) ∧
    (¬ (st.wifiConnected = true ∧ st.deviceRegistered = true) →
      ((st.stateReady = true ∧ st.currentUi ≠ UiMode.Provisioning →
        (onMinuteBoundary st).redrew = true ∧
        (onMinuteBoundary st).st.minuteRefreshPending = false) ∧
       (¬ (st.stateReady = true ∧ st.currentUi ≠ UiMode.Provisioning) →
        (onMinuteBoundary st).redrew = false ∧
        (onMinuteBoundary st).st.minuteRefreshPending = true))) := by
  unfold onMinuteBoundary
  dsimp only
  constructor
  · intro hw hr
    rw [if_pos ⟨hw, hr⟩]
    refine ⟨rfl, rfl, ?_⟩
    intro now hnow
    simp [stateFetchDue, hnow]
  · intro hnc
    rw [if_neg hnc]
    constructor
    · intro hsr
      rw [if_pos hsr]
      exact ⟨rfl, rfl⟩
    · intro hnsr
      rw [if_neg hnsr]
      exact ⟨rfl, rfl⟩

/-- Witness for the amended claim C7: a connected and registered state
(timestamp zeroed, guard passes at 61 seconds of uptime) and the
disconnected counterexample state (flag stays pending, no redraw). -/
theorem minute_tick_amended_witness :
    ((onMinuteBoundary ⟨false, 7, true, true, true, UiMode.Calendar⟩).st.lastStateFetch = 0 ∧
     (onMinuteBoundary ⟨false, 7, true, true, true, UiMode.Calendar⟩).st.minuteRefreshPending = true ∧
     stateFetchDue (61000 + 1)
       (onMinuteBoundary ⟨false, 7, true, true, true, UiMode.Calendar⟩).st.lastStateFetch
       (onMinuteBoundary ⟨false, 7, true, true, true, UiMode.Calendar⟩).st.stateReady = true) ∧
    ((onMinuteBoundary minuteTickCex).redrew = false ∧
     (onMinuteBoundary minuteTickCex).st.minuteRefreshPending = true) := by
  constructor
  · have h := (minute_tick_amended ⟨false, 7, true, true, true, UiMode.Calendar⟩).1 rfl rfl
    exact ⟨h.1, h.2.1, h.2.2 (61000 + 1) (by decide)⟩
  · exact ((minute_tick_amended minuteTickCex).2 (by decide)).2 (by decide)

/-- Claim C9: at boot the primary calendar buffer holds the non-empty
placeholder text, so a Calendar request from any mode never substitutes
Email — the fallback reads the displayed text buffer, not whether a
snapshot was fetched. -/
theorem boot_placeholder_calendar :
    initialDisplayState.gCalSlotPrimary = "Pair Zen Display" ∧
    initialDisplayState.gCalSlotPrimary.isEmpty = false ∧
    (refreshDisplayForMode UiMode.Provisioning initialDisplayState.gCalSlotPrimary
      UiMode.Calendar).newUi = UiMode.Calendar ∧
    (refreshDisplayForMode UiMode.Email initialDisplayState.gCalSlotPrimary
      UiMode.Calendar).newUi = UiMode.Calendar ∧
    (refreshDisplayForMode UiMode.Calendar initialDisplayState.gCalSlotPrimary
      UiMode.Calendar).newUi = UiMode.Calendar := by
  refine ⟨rfl, rfl, ?_, ?_, rfl⟩
  · decide
  · decide

/-- Claim C10: in Email mode with an empty calendar snapshot (the
primary buffer cleared, as a zero-entry fetch leaves it), a rising-edge
mode-button press requests Calendar, which falls back to Email, and a
full redraw of the unchanged Email view still runs, because the no-op
check compares the current mode against the requested target before
the fallback substitution. -/
theorem email_button_fallback_redraw :
    (applyCalendarBuffers initialDisplayState []).gCalSlotPrimary = "" ∧
    modeButtonTarget UiMode.Email = UiMode.Calendar ∧
    (modeButtonPress UiMode.Email "").newUi = UiMode.Email ∧
    (modeButtonPress UiMode.Email "").redrew = true := by
  refine ⟨rfl, ?_, ?_, ?_⟩
  · decide
  · decide
  · decide

end ZenDisplay
